import Mathlib

/-!
Verification of the WebDAV front-end gate (`webdavd/server.go`): TLS trust
verification, Basic-auth authentication with a credential cache, ordered
admission checks, and directory GET/HEAD request preprocessing.

The Go code is shallowly embedded: pure helpers become Lean functions;
stateful code threads an explicit `World` (credential cache, lock-handle
allocator) and records calls to external collaborators as an `Event` trace.
External collaborators (identity provider, connection registry, ban list,
filesystem stat, proxy configuration) are oracles in an `Env` record.
-/

namespace Webdavd

/-- An X.509 certificate, abstracted to its distinguishing subject name. -/
structure Cert where
  subject : String
deriving DecidableEq, Repr

/-- The TLS handshake state fields read by `verifyTLSConnection`:
`state.PeerCertificates` and `state.VerifiedChains`. -/
structure TLSConnectionState where
  peerCertificates : List Cert
  verifiedChains : List (List Cert)
deriving Repr

/-- Result of `verifyTLSConnection`: `nil`, the "unable to get verification
chain" error, or `common.ErrCrtRevoked`. -/
inductive TLSVerifyResult where
  | ok
  | chainUnverifiable
  | crtRevoked
deriving DecidableEq, Repr

/-- The revocation authority held by `certMgr`: `certMgr.IsRevoked` takes the
(possibly nil) client leaf certificate and the (possibly nil) chain anchor.
`verifyTLSConnection` receives `none` when `certMgr` is nil. -/
abbrev RevocationAuthority : Type := Option Cert → Option Cert → Bool

/-- Embedding of `webDavServer.verifyTLSConnection` (server.go lines 82-107):
if `certMgr` is nil return nil; otherwise take the leaf as
`state.PeerCertificates[0]` when present, fail when there is no verified
chain, and fail with `ErrCrtRevoked` as soon as some verified chain's last
element (trust anchor) marks the leaf revoked. -/
def verifyTLSConnection (certMgr : Option RevocationAuthority)
    (state : TLSConnectionState) : TLSVerifyResult :=
  match certMgr with
  | none => .ok
  | some isRevoked =>
    let clientCrt : Option Cert := state.peerCertificates.head?
    if state.verifiedChains.length = 0 then
      .chainUnverifiable
    else if state.verifiedChains.any (fun chain => isRevoked clientCrt chain.getLast?) then
      .crtRevoked
    else
      .ok

/-- Stat result used by `checkRequestMethod`; only `IsDir()` is consulted. -/
structure FileInfo where
  isDir : Bool
deriving DecidableEq, Repr

/-- The fields of `*http.Request` this subsystem reads or mutates:
method, URL path, headers, remote address and decoded Basic credentials
(`r.BasicAuth()`; `none` means the framing is missing or invalid). -/
structure Request where
  method : String
  urlPath : String
  headers : List (String × String)
  remoteAddr : String
  basicAuth : Option (String × String)
deriving DecidableEq, Repr

/-- `http.Header.Get`: first value stored for the key, `""` when absent. -/
def headerGet (headers : List (String × String)) (key : String) : String :=
  match headers.find? (fun p => p.1 = key) with
  | some p => p.2
  | none => ""

/-- `http.Header.Add`: record a further value for the key. -/
def headerAdd (headers : List (String × String)) (key value : String) :
    List (String × String) :=
  headers ++ [(key, value)]

/-- The identity fields consulted by this subsystem (`dataprovider.User`).
External predicates of the user (`IsLoginMethodAllowed` for the password
method, `IsLoginFromAddrAllowed`) are carried as fields. -/
structure DavUser where
  username : String
  homeDir : String
  deniedProtocols : List String
  passwordLoginAllowed : Bool
  maxSessions : Int
  hasOverlappedMappedPaths : Bool
  fsProvider : Nat
  uid : Nat
  gid : Nat
  loginFromAddrAllowed : String → Bool

/-- The zero value `var user dataprovider.User` returned on failures. -/
def emptyUser : DavUser :=
  { username := ""
    homeDir := ""
    deniedProtocols := []
    passwordLoginAllowed := true
    maxSessions := 0
    hasOverlappedMappedPaths := false
    fsProvider := 0
    uid := 0
    gid := 0
    loginFromAddrAllowed := fun _ => true }

/-- `dataprovider.SFTPFilesystemProvider`, the remote-passthrough filesystem
kind for which the proactive root-path check is skipped. -/
def sftpFilesystemProvider : Nat := 5

/-- `common.ProtocolWebDAV`, the protocol tag. -/
def protocolWebDAV : String := "DAV"

/-- A `dataprovider.CachedUser`: identity snapshot, the plaintext password in
force at cache time, the lock-handle reference and an optional expiration
instant (`none` = never expires). Lock handles and instants are `Nat`. -/
structure CachedUser where
  user : DavUser
  password : String
  lockSystem : Nat
  expiration : Option Nat

/-- Modelled from the spec: `dataprovider.CachedUser.IsExpired` is not part of
this file; per the spec a cached credential is valid only if its expiration is
unset or strictly in the future, so it is expired exactly when the expiration
is set and not after the current instant. -/
def CachedUser.isExpired (cu : CachedUser) (now : Nat) : Bool :=
  match cu.expiration with
  | none => false
  | some t => t ≤ now

/-- The credential cache, keyed by username. -/
def Cache : Type := List (String × CachedUser)

/-- Modelled from the spec: `dataprovider.GetCachedWebDAVUser` is not part of
this file; the cache `get` returns the entry stored for the username when one
exists. -/
def getCachedWebDAVUser (cache : Cache) (username : String) : Option CachedUser :=
  match cache.find? (fun p => p.1 = username) with
  | some p => some p.2
  | none => none

/-- Modelled from the spec: `dataprovider.RemoveCachedWebDAVUser` is not part
of this file; the cache `remove` drops the entry stored for the username. -/
def removeCachedWebDAVUser (cache : Cache) (username : String) : Cache :=
  cache.filter (fun p => p.1 ≠ username)

/-- Modelled from the spec: `dataprovider.CacheWebDAVUser` is not part of this
file; the cache `put` stores the entry under its username and enforces the
configured maximum size at insertion time (size-bounded FIFO when the bound is
positive). -/
def cacheWebDAVUser (cache : Cache) (cu : CachedUser) (maxSize : Nat) : Cache :=
  let trimmed := (cu.user.username, cu) :: removeCachedWebDAVUser cache cu.user.username
  if maxSize > 0 then trimmed.take maxSize else trimmed

/-- Errors surfaced by `authenticate`: `err401` ("Unauthorized"),
`dataprovider.ErrInvalidCredentials`, or the identity provider's error
(carrying its message). -/
inductive AuthError where
  | unauthorized
  | invalidCredentials
  | providerFailure (msg : String)
deriving DecidableEq, Repr

/-- Rejections of `validateUser`, one per check, with the data interpolated
into the returned error message. -/
inductive AdmissionError where
  | invalidHomeDir (homeDir : String)
  | protocolDenied (username : String)
  | loginMethodNotAllowed (username : String)
  | tooManySessions (active : Int)
  | overlappedMappedPaths
  | addrNotAllowed (username : String) (addr : String)
deriving DecidableEq, Repr

/-- Calls into external collaborators, recorded in order of occurrence. -/
inductive Event where
  | limitCheck
  | addrResolved (addr : String)
  | banCheck (ip : String)
  | postConnectHook (ip : String)
  | authCall
  | providerCheck (username : String)
  | rootPathCheck (username : String)
  | report (username : String) (failed : Bool)
  | connIDGenerated (connectionID : String)
  | sessionQuery (active : Int)
  | registryAdd (connectionID : String)
  | registryRemove (connectionID : String)
  | lastLoginUpdate (username : String)
deriving DecidableEq, Repr

/-- The external collaborators and configuration consulted per request. -/
structure Env where
  isNewConnectionAllowed : Bool
  proxyProtocol : Nat
  getIPFromRemoteAddress : String → String
  isBanned : String → Bool
  postConnectHookOk : String → Bool
  checkUserAndPass : String → String → String → Except String DavUser
  cacheExpirationTime : Nat
  cacheMaxSize : Nat
  now : Nat
  tempFsOk : Bool
  getFilesystemErr : Option String
  newConnID : String
  activeSessions : String → Int
  quotaTracking : Nat
  pathClean : String → String
  stat : String → Option FileInfo

/-- The mutable state this subsystem owns across a call: the credential cache
and the allocator of fresh lock handles (`webdav.NewMemLS()` hands out
`nextLock` and bumps it). -/
structure World where
  cache : Cache
  nextLock : Nat

/-- `xff[:strings.Index(xff, ", ")]` (the whole string when the separator is
absent): the characters before the first occurrence of `", "`. -/
def beforeCommaSpace : List Char → List Char
  | [] => []
  | ',' :: ' ' :: _ => []
  | c :: rest => c :: beforeCommaSpace rest

/-- `strings.TrimSpace`: strip whitespace from both ends. -/
def trimSpace (s : String) : String :=
  ⟨((s.data.dropWhile Char.isWhitespace).reverse.dropWhile Char.isWhitespace).reverse⟩

/-- First comma-separated value of an `X-Forwarded-For` header:
`strings.TrimSpace(xff[:i])` with `i` the index of the first `", "`. -/
def firstForwardedFor (xff : String) : String :=
  trimSpace ⟨beforeCommaSpace xff.data⟩

/-- Embedding of `checkRemoteAddress` (server.go lines 312-332): outside a
proxy-protocol deployment, `X-Real-IP` or else the first comma-separated
value of `X-Forwarded-For`, trimmed, replaces the remote address when
non-empty. -/
def checkRemoteAddress (proxyProtocol : Nat) (r : Request) : Request :=
  if proxyProtocol ≠ 0 then r
  else
    let ip :=
      if headerGet r.headers "X-Real-IP" ≠ "" then
        headerGet r.headers "X-Real-IP"
      else if headerGet r.headers "X-Forwarded-For" ≠ "" then
        firstForwardedFor (headerGet r.headers "X-Forwarded-For")
      else ""
    if ip.length > 0 then { r with remoteAddr := ip } else r

/-- The request as seen after proxy-header address resolution. -/
def resolvedRequest (env : Env) (r : Request) : Request :=
  checkRemoteAddress env.proxyProtocol r

/-- `utils.GetIPFromRemoteAddress` applied to the resolved remote address. -/
def resolvedIP (env : Env) (r : Request) : String :=
  env.getIPFromRemoteAddress (resolvedRequest env r).remoteAddr

/-- Embedding of `updateLoginMetrics` (server.go lines 334-346): one Outcome
Reporter invocation, recording the username and whether the attempt failed. -/
def updateLoginMetrics (user : DavUser) (err : Option AuthError) : List Event :=
  [.report user.username err.isSome]

/-- Reporter invocation for the `validateUser` / `GetFilesystem` error paths
of `ServeHTTP`, where the error is an admission or internal failure. -/
def updateLoginMetricsAdmission (user : DavUser) (failed : Bool) : List Event :=
  [.report user.username failed]

/-- Result of `authenticate`: the resolved user, the cached flag, the lock
handle (`none` on failure) and the error. -/
structure AuthResult where
  user : DavUser
  cached : Bool
  lockSystem : Option Nat
  err : Option AuthError

/-- Embedding of `authenticate` after a cache miss (server.go lines 221-247):
full verification against the identity provider; on failure stamp the
username; on success allocate a fresh lock handle and, when the password is
non-empty, cache the credential (expiration `now + TTL` when the TTL is
positive) and best-effort check the root path unless the filesystem kind is
the SFTP passthrough. -/
def fullVerification (env : Env) (w : World) (username password ip : String) :
    AuthResult × World × List Event :=
  match env.checkUserAndPass username password ip with
  | .error msg =>
    let user := { emptyUser with username := username }
    (⟨user, false, none, some (.providerFailure msg)⟩, w,
      .providerCheck username :: updateLoginMetrics user (some (.providerFailure msg)))
  | .ok user =>
    let lockSystem := w.nextLock
    let w := { w with nextLock := w.nextLock + 1 }
    if password ≠ "" then
      let cachedUser : CachedUser :=
        { user := user
          password := password
          lockSystem := lockSystem
          expiration :=
            if env.cacheExpirationTime > 0 then some (env.now + env.cacheExpirationTime)
            else none }
      let w := { w with cache := cacheWebDAVUser w.cache cachedUser env.cacheMaxSize }
      let rootEvents :=
        if user.fsProvider ≠ sftpFilesystemProvider ∧ env.tempFsOk then
          [Event.rootPathCheck user.username]
        else []
      (⟨user, false, some lockSystem, none⟩, w, .providerCheck username :: rootEvents)
    else
      (⟨user, false, some lockSystem, none⟩, w, [.providerCheck username])

/-- Embedding of `webDavServer.authenticate` (server.go lines 201-248):
reject missing Basic framing; consult the credential cache, purging an
expired entry and continuing as a miss; on a live entry a non-empty verbatim
password match succeeds and anything else is `ErrInvalidCredentials` without
reaching the identity provider; on a miss run `fullVerification`. -/
def authenticate (env : Env) (w : World) (r : Request) (ip : String) :
    AuthResult × World × List Event :=
  match r.basicAuth with
  | none => (⟨emptyUser, false, none, some .unauthorized⟩, w, [])
  | some (username, password) =>
    match getCachedWebDAVUser w.cache username with
    | some cachedUser =>
      if cachedUser.isExpired env.now then
        fullVerification env { w with cache := removeCachedWebDAVUser w.cache username }
          username password ip
      else if password ≠ "" ∧ cachedUser.password = password then
        (⟨cachedUser.user, true, some cachedUser.lockSystem, none⟩, w, [])
      else
        (⟨emptyUser, false, none, some .invalidCredentials⟩, w,
          updateLoginMetrics cachedUser.user (some .invalidCredentials))
    | none => fullVerification env w username password ip

/-- `filepath.IsAbs` on a Unix target: the path starts with `/`. -/
def filepathIsAbs (p : String) : Bool := p.data.head? = some '/'

/-- `utils.IsStringInSlice`: membership in the slice. -/
def isStringInSlice (s : String) (slice : List String) : Bool :=
  slice.any (fun x => x = s)

/-- The `connectionID` string built at the top of `validateUser`
(`fmt.Sprintf("%v_%v", common.ProtocolWebDAV, connID)`), used for logging. -/
def generatedConnectionID (connID : String) : String :=
  protocolWebDAV ++ "_" ++ connID

/-- Embedding of `webDavServer.validateUser` (server.go lines 250-285):
draw a fresh random token `connID` (xid), build the protocol-tagged
`connectionID` for logging, then run the ordered short-circuiting checks:
absolute home directory, denied protocols, password login method, session
ceiling (registry queried only when the ceiling is positive), mapped-path
overlap under quota tracking, and source address. Every branch returns
`connID`. -/
def validateUser (env : Env) (user : DavUser) (r : Request) :
    (String × Option AdmissionError) × List Event :=
  let connID := env.newConnID
  let connectionID := generatedConnectionID connID
  let gen := [Event.connIDGenerated connectionID]
  if ¬ filepathIsAbs user.homeDir then
    ((connID, some (.invalidHomeDir user.homeDir)), gen)
  else if isStringInSlice protocolWebDAV user.deniedProtocols then
    ((connID, some (.protocolDenied user.username)), gen)
  else if ¬ user.passwordLoginAllowed then
    ((connID, some (.loginMethodNotAllowed user.username)), gen)
  else if user.maxSessions > 0 ∧ env.activeSessions user.username ≥ user.maxSessions then
    ((connID, some (.tooManySessions (env.activeSessions user.username))),
      gen ++ [Event.sessionQuery (env.activeSessions user.username)])
  else
    let sessionEvents :=
      if user.maxSessions > 0 then [Event.sessionQuery (env.activeSessions user.username)]
      else []
    if env.quotaTracking > 0 ∧ user.hasOverlappedMappedPaths then
      ((connID, some .overlappedMappedPaths), gen ++ sessionEvents)
    else if ¬ user.loginFromAddrAllowed r.remoteAddr then
      ((connID, some (.addrNotAllowed user.username r.remoteAddr)), gen ++ sessionEvents)
    else
      ((connID, none), gen ++ sessionEvents)

/-- Embedding of `checkRequestMethod` (server.go lines 110-126): for GET and
HEAD, stat the cleaned path through the connection; on a directory, HEAD is
reported as handled (true, request untouched) and GET is rewritten in place
to PROPFIND with a `Depth: 1` header added only when none is present. -/
def checkRequestMethod (env : Env) (r : Request) : Request × Bool :=
  if r.method = "GET" ∨ r.method = "HEAD" then
    let p := env.pathClean r.urlPath
    match env.stat p with
    | some info =>
      if info.isDir then
        if r.method = "HEAD" then (r, true)
        else
          ({ r with
              method := "PROPFIND"
              headers :=
                if headerGet r.headers "Depth" = "" then headerAdd r.headers "Depth" "1"
                else r.headers }, false)
      else (r, false)
    | none => (r, false)
  else (r, false)

/-- The response `ServeHTTP` emits: an `http.Error` with its status code and
message, the handled-HEAD Multi-Status response (207, `Content-Type:
text/xml; charset=utf-8`, empty body), or the hand-off to the downstream
`webdav.Handler` with the (possibly rewritten) request. -/
inductive HttpResponse where
  | httpError (status : Nat) (msg : String)
  | davMultiStatus
  | davHandler (r : Request)
deriving DecidableEq, Repr

/-- Message of the external `common.ErrConnectionDenied`. -/
def errConnectionDenied : String := "you are not allowed to connect"

/-- Message of `err401`. -/
def err401Message : String := "Unauthorized"

/-- Embedding of `webDavServer.ServeHTTP` (server.go lines 129-199): global
connection ceiling (503), proxy-header address resolution, ban list (403),
post-connect hook (403), `authenticate` (401 on error), `validateUser`
(403, reported), `GetFilesystem` (500, reported), success report,
registration in the connection registry, last-login update, and either the
self-handled directory HEAD response or the downstream handler. -/
def ServeHTTP (env : Env) (w : World) (r : Request) :
    HttpResponse × World × List Event :=
  if ¬ env.isNewConnectionAllowed then
    (.httpError 503 errConnectionDenied, w, [.limitCheck])
  else
    let r := checkRemoteAddress env.proxyProtocol r
    let ipAddr := env.getIPFromRemoteAddress r.remoteAddr
    let pre : List Event := [.limitCheck, .addrResolved r.remoteAddr, .banCheck ipAddr]
    if env.isBanned ipAddr then
      (.httpError 403 errConnectionDenied, w, pre)
    else if ¬ env.postConnectHookOk ipAddr then
      (.httpError 403 errConnectionDenied, w, pre ++ [.postConnectHook ipAddr])
    else
      let pre := pre ++ [.postConnectHook ipAddr, .authCall]
      match authenticate env w r ipAddr with
      | (authRes, w, authEvents) =>
        let pre := pre ++ authEvents
        match authRes.err with
        | some _ => (.httpError 401 err401Message, w, pre)
        | none =>
          let user := authRes.user
          match validateUser env user r with
          | ((_, some admissionErr), valEvents) =>
            (.httpError 403 (reprStr admissionErr), w,
              pre ++ valEvents ++ updateLoginMetricsAdmission user true)
          | ((connectionID, none), valEvents) =>
            match env.getFilesystemErr with
            | some msg =>
              (.httpError 500 msg, w,
                pre ++ valEvents ++ updateLoginMetricsAdmission user true)
            | none =>
              let pre := pre ++ valEvents ++ updateLoginMetrics user none ++
                [.registryAdd connectionID, .lastLoginUpdate user.username]
              match checkRequestMethod env r with
              | (_, true) =>
                (.davMultiStatus, w, pre ++ [.registryRemove connectionID])
              | (rw, false) =>
                (.davHandler rw, w, pre ++ [.registryRemove connectionID])

/-! ## Claim theorems -/

/-- C1: with at least one verified chain, the TLS trust verifier fails with
the certificate-revoked error whenever the presented leaf certificate is
revoked under the trust anchor (last element) of any one of the verified
chains; with zero verified chains it fails with the chain-unverifiable
error; and when the revocation authority (`certMgr`) is absent it always
passes. -/
theorem verifyTLSConnection_revocation (isRevoked : RevocationAuthority)
    (state : TLSConnectionState) :
    (state.verifiedChains.length ≠ 0 →
      (∃ chain ∈ state.verifiedChains,
        isRevoked state.peerCertificates.head? chain.getLast? = true) →
      verifyTLSConnection (some isRevoked) state = .crtRevoked)
    ∧ (state.verifiedChains.length = 0 →
      verifyTLSConnection (some isRevoked) state = .chainUnverifiable)
    ∧ verifyTLSConnection none state = .ok := by
  refine ⟨?_, ?_, rfl⟩
  · intro hne hrev
    simp only [verifyTLSConnection, if_neg hne]
    rw [if_pos]
    rw [List.any_eq_true]
    obtain ⟨chain, hmem, hrv⟩ := hrev
    exact ⟨chain, hmem, hrv⟩
  · intro hz
    simp only [verifyTLSConnection, if_pos hz]

/-- Witness for C1: a leaf revoked under the anchor of the second of two
verified chains is rejected even though the first chain is clean, and a
state with no verified chain is rejected as unverifiable. -/
theorem verifyTLSConnection_revocation_witness :
    verifyTLSConnection
        (some (fun _ ca => ca = some ⟨"rootB"⟩))
        ⟨[⟨"leaf"⟩], [[⟨"leaf"⟩, ⟨"rootA"⟩], [⟨"leaf"⟩, ⟨"rootB"⟩]]⟩ = .crtRevoked
    ∧ verifyTLSConnection (some (fun _ _ => false)) ⟨[⟨"leaf"⟩], []⟩ =
        .chainUnverifiable := by
  constructor
  · exact (verifyTLSConnection_revocation (fun _ ca => ca = some ⟨"rootB"⟩)
      ⟨[⟨"leaf"⟩], [[⟨"leaf"⟩, ⟨"rootA"⟩], [⟨"leaf"⟩, ⟨"rootB"⟩]]⟩).1
      (by decide) ⟨[⟨"leaf"⟩, ⟨"rootB"⟩], by decide, by decide⟩
  · exact (verifyTLSConnection_revocation (fun _ _ => false)
      ⟨[⟨"leaf"⟩], []⟩).2.1 (by decide)

/-- `fullVerification` always invokes the identity provider: its trace starts
with the provider-check event. -/
theorem fullVerification_head (env : Env) (w : World) (username password ip : String) :
    (fullVerification env w username password ip).2.2.head? =
      some (.providerCheck username) := by
  simp only [fullVerification]
  cases env.checkUserAndPass username password ip with
  | error msg => rfl
  | ok user =>
    by_cases hp : password ≠ "" <;> simp [hp]

/-- `fullVerification` never reports the cached flag. -/
theorem fullVerification_not_cached (env : Env) (w : World)
    (username password ip : String) :
    (fullVerification env w username password ip).1.cached = false := by
  simp only [fullVerification]
  cases env.checkUserAndPass username password ip with
  | error msg => rfl
  | ok user =>
    by_cases hp : password ≠ "" <;> simp [hp]

/-- C2: a cached credential whose expiration is set and not strictly in the
future is never returned as valid: the entry is purged from the cache and the
call proceeds exactly as a cache miss, performing a fresh full verification
against the identity provider. -/
theorem authenticate_expired_purged (env : Env) (w : World) (r : Request)
    (ip username password : String) (cu : CachedUser)
    (hba : r.basicAuth = some (username, password))
    (hlook : getCachedWebDAVUser w.cache username = some cu)
    (hexp : cu.isExpired env.now = true) :
    authenticate env w r ip =
      fullVerification env { w with cache := removeCachedWebDAVUser w.cache username }
        username password ip
    ∧ (authenticate env w r ip).1.cached = false
    ∧ (authenticate env w r ip).2.2.head? = some (.providerCheck username) := by
  have heq : authenticate env w r ip =
      fullVerification env { w with cache := removeCachedWebDAVUser w.cache username }
        username password ip := by
    simp only [authenticate, hba, hlook, hexp, if_pos]
  refine ⟨heq, ?_, ?_⟩
  · rw [heq]; exact fullVerification_not_cached ..
  · rw [heq]; exact fullVerification_head ..

/-- A sample identity with a valid absolute home directory. -/
def aliceUser : DavUser :=
  { emptyUser with username := "alice", homeDir := "/home/alice" }

/-- A sample environment: all connection-level checks pass, the identity
provider accepts `alice` with password `secret` or an empty password, the
cache TTL is unset, nothing stats as a directory. -/
def baseEnv : Env :=
  { isNewConnectionAllowed := true
    proxyProtocol := 0
    getIPFromRemoteAddress := fun s => s
    isBanned := fun _ => false
    postConnectHookOk := fun _ => true
    checkUserAndPass := fun u p _ =>
      if u = "alice" ∧ (p = "secret" ∨ p = "") then .ok aliceUser
      else .error "invalid credentials"
    cacheExpirationTime := 0
    cacheMaxSize := 50
    now := 100
    tempFsOk := true
    getFilesystemErr := none
    newConnID := "tok1"
    activeSessions := fun _ => 0
    quotaTracking := 0
    pathClean := fun s => s
    stat := fun _ => none }

/-- An empty world: empty credential cache, lock allocator at zero. -/
def emptyWorld : World := { cache := [], nextLock := 0 }

/-- A cache entry for `alice` that expired at instant 50. -/
def staleAlice : CachedUser :=
  { user := aliceUser, password := "secret", lockSystem := 7, expiration := some 50 }

/-- A world whose cache holds the stale `alice` entry. -/
def staleWorld : World := { cache := [("alice", staleAlice)], nextLock := 10 }

/-- A request with the given Basic credentials. -/
def basicReq (u p : String) : Request :=
  { method := "GET", urlPath := "/", headers := [], remoteAddr := "127.0.0.1:4567",
    basicAuth := some (u, p) }

/-- Witness for C2: with a cache entry for `alice` expired at instant 50 and
the clock at 100, `authenticate` purges the entry and performs a fresh full
verification. -/
theorem authenticate_expired_purged_witness :
    authenticate baseEnv staleWorld (basicReq "alice" "secret") "127.0.0.1" =
      fullVerification baseEnv
        { staleWorld with cache := removeCachedWebDAVUser staleWorld.cache "alice" }
        "alice" "secret" "127.0.0.1"
    ∧ (authenticate baseEnv staleWorld (basicReq "alice" "secret") "127.0.0.1").1.cached
        = false
    ∧ (authenticate baseEnv staleWorld (basicReq "alice" "secret") "127.0.0.1").2.2.head?
        = some (.providerCheck "alice") :=
  authenticate_expired_purged baseEnv staleWorld (basicReq "alice" "secret")
    "127.0.0.1" "alice" "secret" staleAlice rfl rfl rfl

/-- C3: on a live (non-expired) cache hit, any supplied password that does not
verbatim-match the cached one — and any empty supplied password, even against
an empty cached password — fails with the invalid-credentials error, reports
the outcome once, leaves the world untouched and never reaches the identity
provider. -/
theorem authenticate_cache_mismatch_rejects (env : Env) (w : World) (r : Request)
    (ip username password : String) (cu : CachedUser)
    (hba : r.basicAuth = some (username, password))
    (hlook : getCachedWebDAVUser w.cache username = some cu)
    (hlive : cu.isExpired env.now = false)
    (hmismatch : password = "" ∨ cu.password ≠ password) :
    authenticate env w r ip =
      (⟨emptyUser, false, none, some .invalidCredentials⟩, w,
        [.report cu.user.username true])
    ∧ (∀ u, Event.providerCheck u ∉ (authenticate env w r ip).2.2) := by
  have hcond : ¬ (password ≠ "" ∧ cu.password = password) := by
    rcases hmismatch with h | h
    · exact fun hc => hc.1 h
    · exact fun hc => h hc.2
  have heq : authenticate env w r ip =
      (⟨emptyUser, false, none, some .invalidCredentials⟩, w,
        [.report cu.user.username true]) := by
    simp only [authenticate, hba, hlook, hlive, Bool.false_eq_true, if_false,
      if_neg hcond, updateLoginMetrics, Option.isSome_some]
  refine ⟨heq, ?_⟩
  intro u
  rw [heq]
  simp

/-- Witness for C3: a live cache entry for `alice` with cached password
`secret`; supplying `wrong` fails with invalid credentials without invoking
the identity provider, and so does supplying the empty password against a
live entry whose cached password is empty. -/
theorem authenticate_cache_mismatch_rejects_witness :
    (authenticate baseEnv
        ⟨[("alice", ⟨aliceUser, "secret", 7, none⟩)], 10⟩
        (basicReq "alice" "wrong") "127.0.0.1" =
      (⟨emptyUser, false, none, some .invalidCredentials⟩,
        ⟨[("alice", ⟨aliceUser, "secret", 7, none⟩)], 10⟩,
        [.report "alice" true])
     ∧ (∀ u, Event.providerCheck u ∉
        (authenticate baseEnv
          ⟨[("alice", ⟨aliceUser, "secret", 7, none⟩)], 10⟩
          (basicReq "alice" "wrong") "127.0.0.1").2.2))
    ∧ (authenticate baseEnv
        ⟨[("alice", ⟨aliceUser, "", 7, none⟩)], 10⟩
        (basicReq "alice" "") "127.0.0.1" =
      (⟨emptyUser, false, none, some .invalidCredentials⟩,
        ⟨[("alice", ⟨aliceUser, "", 7, none⟩)], 10⟩,
        [.report "alice" true]))
    ∧ (∀ u, Event.providerCheck u ∉
        (authenticate baseEnv
          ⟨[("alice", ⟨aliceUser, "", 7, none⟩)], 10⟩
          (basicReq "alice" "") "127.0.0.1").2.2) := by
  refine ⟨?_, ?_, ?_⟩
  · exact authenticate_cache_mismatch_rejects baseEnv
      ⟨[("alice", ⟨aliceUser, "secret", 7, none⟩)], 10⟩
      (basicReq "alice" "wrong") "127.0.0.1" "alice" "wrong"
      ⟨aliceUser, "secret", 7, none⟩ rfl rfl rfl (Or.inr (by decide))
  · exact (authenticate_cache_mismatch_rejects baseEnv
      ⟨[("alice", ⟨aliceUser, "", 7, none⟩)], 10⟩
      (basicReq "alice" "") "127.0.0.1" "alice" ""
      ⟨aliceUser, "", 7, none⟩ rfl rfl rfl (Or.inl rfl)).1
  · exact (authenticate_cache_mismatch_rejects baseEnv
      ⟨[("alice", ⟨aliceUser, "", 7, none⟩)], 10⟩
      (basicReq "alice" "") "127.0.0.1" "alice" ""
      ⟨aliceUser, "", 7, none⟩ rfl rfl rfl (Or.inl rfl)).2

/-- C10: a successful full verification with an empty supplied password
inserts nothing into the credential cache, skips the proactive root-path
validation, and hands out a freshly allocated lock handle, so two successive
such logins for the same username return distinct lock handles. -/
theorem authenticate_empty_password_fresh_lock (env : Env) (w : World)
    (r : Request) (ip username : String) (user : DavUser)
    (hba : r.basicAuth = some (username, ""))
    (hmiss : getCachedWebDAVUser w.cache username = none)
    (hok : env.checkUserAndPass username "" ip = .ok user) :
    authenticate env w r ip =
      (⟨user, false, some w.nextLock, none⟩, ⟨w.cache, w.nextLock + 1⟩,
        [.providerCheck username])
    ∧ (∀ u, Event.rootPathCheck u ∉ (authenticate env w r ip).2.2)
    ∧ (authenticate env w r ip).1.lockSystem ≠
        (authenticate env (authenticate env w r ip).2.1 r ip).1.lockSystem := by
  have key : ∀ w' : World, getCachedWebDAVUser w'.cache username = none →
      authenticate env w' r ip =
        (⟨user, false, some w'.nextLock, none⟩, ⟨w'.cache, w'.nextLock + 1⟩,
          [.providerCheck username]) := by
    intro w' hmiss'
    simp only [authenticate, hba, hmiss', fullVerification, hok, ne_eq,
      not_true_eq_false, if_false]
  have h1 := key w hmiss
  refine ⟨h1, ?_, ?_⟩
  · intro u
    rw [h1]
    simp
  · rw [h1]
    have h2 := key ⟨w.cache, w.nextLock + 1⟩ hmiss
    rw [h2]
    simp

/-- Witness for C10: two successive empty-password logins for `alice` on an
empty cache leave the cache empty, never check the root path, and return the
distinct lock handles 0 and 1. -/
theorem authenticate_empty_password_fresh_lock_witness :
    authenticate baseEnv emptyWorld (basicReq "alice" "") "127.0.0.1" =
      (⟨aliceUser, false, some 0, none⟩, ⟨[], 1⟩, [.providerCheck "alice"])
    ∧ (∀ u, Event.rootPathCheck u ∉
        (authenticate baseEnv emptyWorld (basicReq "alice" "") "127.0.0.1").2.2)
    ∧ (authenticate baseEnv emptyWorld (basicReq "alice" "") "127.0.0.1").1.lockSystem ≠
        (authenticate baseEnv
          (authenticate baseEnv emptyWorld (basicReq "alice" "") "127.0.0.1").2.1
          (basicReq "alice" "") "127.0.0.1").1.lockSystem :=
  authenticate_empty_password_fresh_lock baseEnv emptyWorld (basicReq "alice" "")
    "127.0.0.1" "alice" aliceUser rfl rfl rfl

/-- C5: the identity-level admission checks run in order — non-absolute home
directory, denied protocol, disallowed password login method, session ceiling
(registry consulted only when the ceiling is positive, the rejection carrying
the observed count), mapped-path overlap under quota tracking, source
address — each short-circuiting on first failure; in particular a relative
home directory is rejected without any session-quota query. -/
theorem validateUser_check_order (env : Env) (user : DavUser) (r : Request) :
    (filepathIsAbs user.homeDir = false →
      (validateUser env user r).1 =
        (env.newConnID, some (.invalidHomeDir user.homeDir))
      ∧ ∀ n, Event.sessionQuery n ∉ (validateUser env user r).2)
    ∧ (filepathIsAbs user.homeDir = true →
       isStringInSlice protocolWebDAV user.deniedProtocols = true →
       (validateUser env user r).1 =
         (env.newConnID, some (.protocolDenied user.username)))
    ∧ (filepathIsAbs user.homeDir = true →
       isStringInSlice protocolWebDAV user.deniedProtocols = false →
       user.passwordLoginAllowed = false →
       (validateUser env user r).1 =
         (env.newConnID, some (.loginMethodNotAllowed user.username)))
    ∧ (filepathIsAbs user.homeDir = true →
       isStringInSlice protocolWebDAV user.deniedProtocols = false →
       user.passwordLoginAllowed = true →
       0 < user.maxSessions →
       user.maxSessions ≤ env.activeSessions user.username →
       (validateUser env user r).1 =
         (env.newConnID, some (.tooManySessions (env.activeSessions user.username))))
    ∧ (filepathIsAbs user.homeDir = true →
       isStringInSlice protocolWebDAV user.deniedProtocols = false →
       user.passwordLoginAllowed = true →
       (0 < user.maxSessions → env.activeSessions user.username < user.maxSessions) →
       0 < env.quotaTracking →
       user.hasOverlappedMappedPaths = true →
       (validateUser env user r).1 = (env.newConnID, some .overlappedMappedPaths))
    ∧ (filepathIsAbs user.homeDir = true →
       isStringInSlice protocolWebDAV user.deniedProtocols = false →
       user.passwordLoginAllowed = true →
       (0 < user.maxSessions → env.activeSessions user.username < user.maxSessions) →
       (env.quotaTracking = 0 ∨ user.hasOverlappedMappedPaths = false) →
       user.loginFromAddrAllowed r.remoteAddr = false →
       (validateUser env user r).1 =
         (env.newConnID, some (.addrNotAllowed user.username r.remoteAddr)))
    ∧ (filepathIsAbs user.homeDir = true →
       isStringInSlice protocolWebDAV user.deniedProtocols = false →
       user.passwordLoginAllowed = true →
       (0 < user.maxSessions → env.activeSessions user.username < user.maxSessions) →
       (env.quotaTracking = 0 ∨ user.hasOverlappedMappedPaths = false) →
       user.loginFromAddrAllowed r.remoteAddr = true →
       (validateUser env user r).1 = (env.newConnID, none))
    ∧ (user.maxSessions ≤ 0 →
       ∀ n, Event.sessionQuery n ∉ (validateUser env user r).2) := by
  refine ⟨?_, ?_, ?_, ?_, ?_, ?_, ?_, ?_⟩
  · intro habs
    constructor
    · simp [validateUser, habs]
    · intro n
      simp [validateUser, habs]
  · intro habs hden
    simp [validateUser, habs, hden]
  · intro habs hden hpw
    simp [validateUser, habs, hden, hpw]
  · intro habs hden hpw hms hge
    simp [validateUser, habs, hden, hpw, hms, hge]
  · intro habs hden hpw hlt hq hov
    have hsn : ¬ (user.maxSessions > 0 ∧ env.activeSessions user.username ≥ user.maxSessions) :=
      fun hc => absurd (hlt hc.1) (not_lt.mpr hc.2)
    simp [validateUser, habs, hden, hpw, hsn, hq, hov]
  · intro habs hden hpw hlt hqo haddr
    have hsn : ¬ (user.maxSessions > 0 ∧ env.activeSessions user.username ≥ user.maxSessions) :=
      fun hc => absurd (hlt hc.1) (not_lt.mpr hc.2)
    have hqneg : ¬ (0 < env.quotaTracking ∧ user.hasOverlappedMappedPaths = true) := by
      rcases hqo with h | h
      · omega
      · simp [h]
    simp [validateUser, habs, hden, hpw, hsn, hqneg, haddr]
  · intro habs hden hpw hlt hqo haddr
    have hsn : ¬ (user.maxSessions > 0 ∧ env.activeSessions user.username ≥ user.maxSessions) :=
      fun hc => absurd (hlt hc.1) (not_lt.mpr hc.2)
    have hqneg : ¬ (0 < env.quotaTracking ∧ user.hasOverlappedMappedPaths = true) := by
      rcases hqo with h | h
      · omega
      · simp [h]
    simp [validateUser, habs, hden, hpw, hsn, hqneg, haddr]
  · intro hms n
    have hms' : ¬ user.maxSessions > 0 := by omega
    simp [validateUser, hms']
    repeat' split
    all_goals simp_all

/-- An identity with a relative home directory and a session ceiling of 1. -/
def relHomeUser : DavUser :=
  { emptyUser with username := "bob", homeDir := "relative/path", maxSessions := 1 }

/-- An identity passing every check up to its session ceiling of 2. -/
def busyUser : DavUser :=
  { emptyUser with username := "carol", homeDir := "/home/carol", maxSessions := 2 }

/-- An environment observing 5 active sessions for every identity. -/
def busyEnv : Env := { baseEnv with activeSessions := fun _ => 5 }

/-- Witness for C5: the relative home directory `relative/path` is rejected
with no session-quota query even though the registry reports 5 ≥ 1 sessions,
and an identity at its ceiling is rejected with the observed count 5. -/
theorem validateUser_check_order_witness :
    ((validateUser busyEnv relHomeUser (basicReq "bob" "x")).1 =
        ("tok1", some (.invalidHomeDir "relative/path"))
      ∧ ∀ n, Event.sessionQuery n ∉ (validateUser busyEnv relHomeUser (basicReq "bob" "x")).2)
    ∧ (validateUser busyEnv busyUser (basicReq "carol" "x")).1 =
        ("tok1", some (.tooManySessions 5)) :=
  ⟨(validateUser_check_order busyEnv relHomeUser (basicReq "bob" "x")).1 (by decide),
    (validateUser_check_order busyEnv busyUser (basicReq "carol" "x")).2.2.2.1
      (by decide) (by decide) (by decide) (by decide) (by decide)⟩

/-- C9 (amended): `validateUser` builds the protocol-tagged connection
identifier (protocol tag, separator, random token) for audit logging, but the
identifier returned alongside the result, on success and on every rejection
alike, is the bare random token. -/
theorem validateUser_returns_bare_token (env : Env) (user : DavUser) (r : Request) :
    (validateUser env user r).1.1 = env.newConnID
    ∧ (validateUser env user r).2.head? =
        some (.connIDGenerated (generatedConnectionID env.newConnID)) := by
  simp only [validateUser]
  constructor <;> (repeat' split) <;> simp_all

/-- C9 counterexample: at a concrete admissible identity the identifier
returned by `validateUser` is the bare token `tok1`, not the tagged
`DAV_tok1` that is generated for logging. -/
theorem validateUser_returned_id_lacks_tag :
    (validateUser baseEnv aliceUser (basicReq "alice" "secret")).1.1 ≠
      generatedConnectionID baseEnv.newConnID
    ∧ Event.connIDGenerated (generatedConnectionID baseEnv.newConnID) ∈
        (validateUser baseEnv aliceUser (basicReq "alice" "secret")).2 := by
  constructor
  · decide
  · decide

/-- C4: the connection-level admission checks run in the order global
connection ceiling (503), ban list (403), post-connect hook (403), each
short-circuiting on first failure; when the ceiling is reached the
authenticator is never invoked. -/
theorem serveHTTP_connection_check_order (env : Env) (w : World) (r : Request) :
    (env.isNewConnectionAllowed = false →
      ServeHTTP env w r = (.httpError 503 errConnectionDenied, w, [.limitCheck]))
    ∧ (env.isNewConnectionAllowed = true →
       env.isBanned (resolvedIP env r) = true →
       ServeHTTP env w r = (.httpError 403 errConnectionDenied, w,
         [.limitCheck, .addrResolved (resolvedRequest env r).remoteAddr,
          .banCheck (resolvedIP env r)]))
    ∧ (env.isNewConnectionAllowed = true →
       env.isBanned (resolvedIP env r) = false →
       env.postConnectHookOk (resolvedIP env r) = false →
       ServeHTTP env w r = (.httpError 403 errConnectionDenied, w,
         [.limitCheck, .addrResolved (resolvedRequest env r).remoteAddr,
          .banCheck (resolvedIP env r), .postConnectHook (resolvedIP env r)]))
    ∧ (env.isNewConnectionAllowed = false →
       Event.authCall ∉ (ServeHTTP env w r).2.2) := by
  refine ⟨?_, ?_, ?_, ?_⟩
  · intro hlim
    simp [ServeHTTP, hlim]
  · intro hlim hban
    simp only [resolvedIP, resolvedRequest] at hban
    simp [ServeHTTP, hlim, hban, resolvedIP, resolvedRequest]
  · intro hlim hban hhook
    simp only [resolvedIP, resolvedRequest] at hban hhook
    simp [ServeHTTP, hlim, hban, hhook, resolvedIP, resolvedRequest]
  · intro hlim
    simp [ServeHTTP, hlim]

/-- Witness for C4: with the global ceiling reached the response is 503 and
the trace stops at the limit check (no authenticator call); a banned source
and a failing post-connect hook each produce 403 at their position in the
sequence. -/
theorem serveHTTP_connection_check_order_witness :
    ServeHTTP { baseEnv with isNewConnectionAllowed := false } emptyWorld
        (basicReq "alice" "secret") =
      (.httpError 503 errConnectionDenied, emptyWorld, [.limitCheck])
    ∧ Event.authCall ∉
        (ServeHTTP { baseEnv with isNewConnectionAllowed := false } emptyWorld
          (basicReq "alice" "secret")).2.2
    ∧ ServeHTTP { baseEnv with isBanned := fun _ => true } emptyWorld
        (basicReq "alice" "secret") =
      (.httpError 403 errConnectionDenied, emptyWorld,
        [.limitCheck, .addrResolved "127.0.0.1:4567", .banCheck "127.0.0.1:4567"])
    ∧ ServeHTTP { baseEnv with postConnectHookOk := fun _ => false } emptyWorld
        (basicReq "alice" "secret") =
      (.httpError 403 errConnectionDenied, emptyWorld,
        [.limitCheck, .addrResolved "127.0.0.1:4567", .banCheck "127.0.0.1:4567",
         .postConnectHook "127.0.0.1:4567"]) :=
  ⟨(serveHTTP_connection_check_order { baseEnv with isNewConnectionAllowed := false }
      emptyWorld (basicReq "alice" "secret")).1 rfl,
   (serveHTTP_connection_check_order { baseEnv with isNewConnectionAllowed := false }
      emptyWorld (basicReq "alice" "secret")).2.2.2 rfl,
   (serveHTTP_connection_check_order { baseEnv with isBanned := fun _ => true }
      emptyWorld (basicReq "alice" "secret")).2.1 rfl rfl,
   (serveHTTP_connection_check_order { baseEnv with postConnectHookOk := fun _ => false }
      emptyWorld (basicReq "alice" "secret")).2.2.1 rfl rfl rfl⟩

/-- A non-empty string has positive length. -/
theorem length_pos_of_ne_empty (s : String) (h : s ≠ "") : 0 < s.length := by
  cases s with
  | mk l =>
    cases l with
    | nil => exact absurd rfl h
    | cons a as => simp [String.length]

/-- C8 (amended): when no lower-level proxy protocol is configured, the
`X-Real-IP` value (first priority) or otherwise the first comma-separated
value of `X-Forwarded-For`, when non-empty, replaces the observed remote
address; the replacement happens after the global connection-limit check and
before the ban-list check (which consults the replaced address); with a proxy
protocol configured the headers are ignored. -/
theorem remoteAddress_override_order (env : Env) (w : World) (r : Request) :
    (env.proxyProtocol ≠ 0 → resolvedRequest env r = r)
    ∧ (env.proxyProtocol = 0 →
       headerGet r.headers "X-Real-IP" ≠ "" →
       (resolvedRequest env r).remoteAddr = headerGet r.headers "X-Real-IP")
    ∧ (env.proxyProtocol = 0 →
       headerGet r.headers "X-Real-IP" = "" →
       headerGet r.headers "X-Forwarded-For" ≠ "" →
       firstForwardedFor (headerGet r.headers "X-Forwarded-For") ≠ "" →
       (resolvedRequest env r).remoteAddr =
         firstForwardedFor (headerGet r.headers "X-Forwarded-For"))
    ∧ (env.isNewConnectionAllowed = true →
       (ServeHTTP env w r).2.2.take 3 =
         [.limitCheck, .addrResolved (resolvedRequest env r).remoteAddr,
          .banCheck (resolvedIP env r)]) := by
  refine ⟨?_, ?_, ?_, ?_⟩
  · intro hp
    simp [resolvedRequest, checkRemoteAddress, hp]
  · intro hp hx
    have hlen := length_pos_of_ne_empty _ hx
    simp [resolvedRequest, checkRemoteAddress, hp, hx, hlen]
  · intro hp hx hf hfv
    have hlen := length_pos_of_ne_empty _ hfv
    simp [resolvedRequest, checkRemoteAddress, hp, hx, hf, hfv, hlen]
  · intro hallow
    simp only [ServeHTTP, hallow, Bool.not_true, Bool.false_eq_true, if_false,
      resolvedIP, resolvedRequest]
    repeat' split
    all_goals simp_all

/-- Witness for C8 (amended): with a proxy protocol the headers are ignored;
`X-Real-IP` wins over `X-Forwarded-For`; the first comma-separated
`X-Forwarded-For` value is used; and an admitted request's trace runs
limit check, then address replacement, then the ban check on the replaced
address. -/
theorem remoteAddress_override_order_witness :
    resolvedRequest { baseEnv with proxyProtocol := 1 }
        { basicReq "alice" "secret" with
          headers := [("X-Real-IP", "9.9.9.9")] } =
      { basicReq "alice" "secret" with headers := [("X-Real-IP", "9.9.9.9")] }
    ∧ (resolvedRequest baseEnv
        { basicReq "alice" "secret" with
          headers := [("X-Real-IP", "9.9.9.9"), ("X-Forwarded-For", "10.0.0.1, 10.0.0.2")] }).remoteAddr
        = "9.9.9.9"
    ∧ (resolvedRequest baseEnv
        { basicReq "alice" "secret" with
          headers := [("X-Forwarded-For", "10.0.0.1, 10.0.0.2")] }).remoteAddr
        = "10.0.0.1"
    ∧ (ServeHTTP baseEnv emptyWorld
        { basicReq "alice" "secret" with
          headers := [("X-Real-IP", "9.9.9.9")] }).2.2.take 3 =
        [.limitCheck, .addrResolved "9.9.9.9", .banCheck "9.9.9.9"] := by
  refine ⟨?_, ?_, ?_, ?_⟩
  · exact (remoteAddress_override_order { baseEnv with proxyProtocol := 1 } emptyWorld
      { basicReq "alice" "secret" with headers := [("X-Real-IP", "9.9.9.9")] }).1
      (by decide)
  · exact (remoteAddress_override_order baseEnv emptyWorld
      { basicReq "alice" "secret" with
        headers := [("X-Real-IP", "9.9.9.9"), ("X-Forwarded-For", "10.0.0.1, 10.0.0.2")] }).2.1
      rfl (by decide)
  · exact ((remoteAddress_override_order baseEnv emptyWorld
      { basicReq "alice" "secret" with
        headers := [("X-Forwarded-For", "10.0.0.1, 10.0.0.2")] }).2.2.1
      rfl rfl (by decide) (by decide)).trans (by decide)
  · exact (remoteAddress_override_order baseEnv emptyWorld
      { basicReq "alice" "secret" with headers := [("X-Real-IP", "9.9.9.9")] }).2.2.2
      rfl

/-- C8 counterexample: with the global connection ceiling reached, a request
carrying `X-Real-IP: 9.9.9.9` (and no proxy protocol configured) is rejected
with the limit check having run while the header replacement never happened —
the replacement does not precede the global connection-limit check. -/
theorem serveHTTP_limit_check_precedes_override :
    Event.addrResolved "9.9.9.9" ∉
      (ServeHTTP { baseEnv with isNewConnectionAllowed := false } emptyWorld
        { basicReq "alice" "secret" with headers := [("X-Real-IP", "9.9.9.9")] }).2.2
    ∧ Event.limitCheck ∈
      (ServeHTTP { baseEnv with isNewConnectionAllowed := false } emptyWorld
        { basicReq "alice" "secret" with headers := [("X-Real-IP", "9.9.9.9")] }).2.2
    ∧ headerGet [("X-Real-IP", "9.9.9.9")] "X-Real-IP" = "9.9.9.9"
    ∧ ({ baseEnv with isNewConnectionAllowed := false } : Env).proxyProtocol = 0 := by
  refine ⟨?_, ?_, rfl, rfl⟩ <;> decide

/-- Discriminates Outcome Reporter invocations in a trace. -/
def isReportEvent : Event → Bool
  | .report _ _ => true
  | _ => false

/-- Number of Outcome Reporter invocations in a trace. -/
def countReports (tr : List Event) : Nat := (tr.filter isReportEvent).length

theorem countReports_append (a b : List Event) :
    countReports (a ++ b) = countReports a + countReports b := by
  simp [countReports, List.filter_append]

theorem countReports_validateUser (env : Env) (u : DavUser) (r : Request) :
    countReports (validateUser env u r).2 = 0 := by
  simp only [validateUser]
  repeat' split
  all_goals simp [countReports, isReportEvent]

theorem countReports_fullVerification (env : Env) (w : World) (u p ip : String) :
    countReports (fullVerification env w u p ip).2.2 =
      (if (fullVerification env w u p ip).1.err = none then 0 else 1) := by
  simp only [fullVerification]
  cases henv : env.checkUserAndPass u p ip with
  | error msg => simp [countReports, isReportEvent, updateLoginMetrics]
  | ok user =>
    by_cases hp : p ≠ "" <;>
      simp only [hp, if_true, if_false, reduceIte] <;>
      (repeat' split) <;>
      simp_all [countReports, isReportEvent]

theorem countReports_authenticate (env : Env) (w : World) (r : Request)
    (ip u p : String) (hba : r.basicAuth = some (u, p)) :
    countReports (authenticate env w r ip).2.2 =
      (if (authenticate env w r ip).1.err = none then 0 else 1) := by
  simp only [authenticate, hba]
  cases hlook : getCachedWebDAVUser w.cache u with
  | none => exact countReports_fullVerification env w u p ip
  | some cu =>
    by_cases hexp : cu.isExpired env.now = true
    · simp only [hexp, if_true]
      exact countReports_fullVerification env _ u p ip
    · simp only [Bool.not_eq_true] at hexp
      by_cases hm : p ≠ "" ∧ cu.password = p
      · simp [hexp, hm, countReports]
      · simp [hexp, hm, countReports, isReportEvent, updateLoginMetrics]

theorem resolvedRequest_basicAuth (env : Env) (r : Request) :
    (resolvedRequest env r).basicAuth = r.basicAuth := by
  simp only [resolvedRequest, checkRemoteAddress]
  repeat' split
  all_goals rfl

/-- C7 (amended): the Outcome Reporter is invoked exactly once per
authentication attempt that presents Basic-auth framing, on success and on
every failure alike; when the framing is missing or invalid the attempt fails
with 401 but the reporter is not invoked at all. -/
theorem serveHTTP_reporter_invoked_once (env : Env) (w : World) (r : Request)
    (hallow : env.isNewConnectionAllowed = true)
    (hban : env.isBanned (resolvedIP env r) = false)
    (hhook : env.postConnectHookOk (resolvedIP env r) = true)
    (hba : r.basicAuth ≠ none) :
    countReports (ServeHTTP env w r).2.2 = 1 := by
  obtain ⟨⟨u, p⟩, hba'⟩ : ∃ x, (resolvedRequest env r).basicAuth = some x := by
    rw [resolvedRequest_basicAuth]
    exact Option.ne_none_iff_exists'.mp hba
  simp only [resolvedIP, resolvedRequest] at hban hhook
  have hcount := countReports_authenticate env w (resolvedRequest env r)
    (env.getIPFromRemoteAddress (resolvedRequest env r).remoteAddr) u p hba'
  simp only [resolvedRequest] at hcount
  simp only [ServeHTTP, hallow, hban, hhook, eq_self_iff_true, not_true,
    Bool.false_eq_true, Bool.true_eq_false, if_false, if_true, reduceIte]
  rcases hA : authenticate env w (checkRemoteAddress env.proxyProtocol r)
      (env.getIPFromRemoteAddress (checkRemoteAddress env.proxyProtocol r).remoteAddr)
    with ⟨aRes, w2, aEv⟩
  simp only [hA] at hcount
  dsimp only
  cases herr : aRes.err with
  | some e =>
    rw [herr] at hcount
    simp only [reduceCtorEq, if_false] at hcount
    simp only [herr]
    simp only [countReports_append, hcount]
    simp [countReports, isReportEvent]
  | none =>
    rw [herr] at hcount
    simp only [if_true, reduceIte] at hcount
    have hval := countReports_validateUser env aRes.user
      (checkRemoteAddress env.proxyProtocol r)
    rcases hV : validateUser env aRes.user (checkRemoteAddress env.proxyProtocol r)
      with ⟨⟨cid, adm⟩, vEv⟩
    rw [hV] at hval
    cases adm with
    | some aerr =>
      simp only [herr, hV, updateLoginMetricsAdmission]
      simp only [countReports_append, hcount, hval]
      simp [countReports, isReportEvent]
    | none =>
      cases hfs : env.getFilesystemErr with
      | some msg =>
        simp only [herr, hV, hfs, updateLoginMetricsAdmission]
        simp only [countReports_append, hcount, hval]
        simp [countReports, isReportEvent]
      | none =>
        rcases hC : checkRequestMethod env (checkRemoteAddress env.proxyProtocol r)
          with ⟨rw2, handled⟩
        cases handled <;>
          (simp only [herr, hV, hfs, hC, updateLoginMetrics]
           simp only [countReports_append, hcount, hval]
           simp [countReports, isReportEvent])

/-- Witness for C7 (amended): a successful framed login for `alice` is
reported exactly once. -/
theorem serveHTTP_reporter_invoked_once_witness :
    countReports (ServeHTTP baseEnv emptyWorld (basicReq "alice" "secret")).2.2 = 1 :=
  serveHTTP_reporter_invoked_once baseEnv emptyWorld (basicReq "alice" "secret")
    rfl rfl rfl (by decide)

/-- C7 counterexample: a request without Basic-auth framing is an
authentication failure (401) for which the Outcome Reporter is never
invoked — not invoked exactly once as claimed. -/
theorem serveHTTP_missing_framing_not_reported :
    (ServeHTTP baseEnv emptyWorld
        { basicReq "x" "y" with basicAuth := none }).1 =
      .httpError 401 err401Message
    ∧ countReports (ServeHTTP baseEnv emptyWorld
        { basicReq "x" "y" with basicAuth := none }).2.2 = 0 := by
  constructor <;> decide

/-- C6: the preprocessor reports "handled" exactly for HEAD on a cleaned path
that stats as a directory, leaving the request untouched, and `ServeHTTP`
then answers 207 Multi-Status with empty body without invoking the downstream
handler; GET on a directory is rewritten in place to PROPFIND with a
`Depth: 1` header added only when absent (an existing one untouched) and
reported "not handled"; every other case reports false with the request
unchanged. -/
theorem checkRequestMethod_directory (env : Env) (w : World) (r : Request) :
    ((checkRequestMethod env r).2 = true ↔
      r.method = "HEAD" ∧ ∃ info, env.stat (env.pathClean r.urlPath) = some info
        ∧ info.isDir = true)
    ∧ ((checkRequestMethod env r).2 = true → (checkRequestMethod env r).1 = r)
    ∧ (r.method = "GET" → env.stat (env.pathClean r.urlPath) = some ⟨true⟩ →
       (checkRequestMethod env r).2 = false
       ∧ (checkRequestMethod env r).1.method = "PROPFIND"
       ∧ (headerGet r.headers "Depth" = "" →
          (checkRequestMethod env r).1.headers = headerAdd r.headers "Depth" "1")
       ∧ (headerGet r.headers "Depth" ≠ "" →
          (checkRequestMethod env r).1.headers = r.headers))
    ∧ ((¬ (r.method = "GET" ∨ r.method = "HEAD"))
        ∨ env.stat (env.pathClean r.urlPath) = none
        ∨ env.stat (env.pathClean r.urlPath) = some ⟨false⟩ →
       checkRequestMethod env r = (r, false))
    ∧ (env.isNewConnectionAllowed = true →
       env.isBanned (resolvedIP env r) = false →
       env.postConnectHookOk (resolvedIP env r) = true →
       (authenticate env w (resolvedRequest env r) (resolvedIP env r)).1.err = none →
       (validateUser env
         (authenticate env w (resolvedRequest env r) (resolvedIP env r)).1.user
         (resolvedRequest env r)).1.2 = none →
       env.getFilesystemErr = none →
       ((checkRequestMethod env (resolvedRequest env r)).2 = true →
        (ServeHTTP env w r).1 = .davMultiStatus)
       ∧ ((checkRequestMethod env (resolvedRequest env r)).2 = false →
        (ServeHTTP env w r).1 =
          .davHandler (checkRequestMethod env (resolvedRequest env r)).1)) := by
  refine ⟨?_, ?_, ?_, ?_, ?_⟩
  · constructor
    · intro h
      simp only [checkRequestMethod] at h
      split at h
      · rename_i hm
        split at h
        · rename_i info hstat
          split at h
          · rename_i hdir
            split at h
            · rename_i hhead
              exact ⟨hhead, info, hstat, hdir⟩
            · simp at h
          · simp at h
        · simp at h
      · simp at h
    · rintro ⟨hm, info, hstat, hdir⟩
      simp [checkRequestMethod, hm, hstat, hdir]
  · intro h
    simp only [checkRequestMethod] at h ⊢
    split at h
    · rename_i hm
      split at h
      · rename_i info hstat
        split at h
        · rename_i hdir
          split at h
          · rename_i hhead
            simp [hm, hstat, hdir, hhead]
          · simp at h
        · simp at h
      · simp at h
    · simp at h
  · intro hm hstat
    have hm' : ¬ r.method = "HEAD" := by simp [hm]
    simp [checkRequestMethod, hm, hm', hstat]
    exact ⟨fun h1 h2 => absurd h1 h2, fun h1 h2 => absurd h2 h1⟩
  · intro hcase
    rcases hcase with hm | hstat | hstat
    · have h1 : ¬ r.method = "GET" := fun h => hm (Or.inl h)
      have h2 : ¬ r.method = "HEAD" := fun h => hm (Or.inr h)
      simp [checkRequestMethod, h1, h2]
    · simp [checkRequestMethod, hstat]
    · simp [checkRequestMethod, hstat]
  · intro hallow hban hhook herr hval hfs
    simp only [resolvedIP, resolvedRequest] at hban hhook herr hval
    simp only [ServeHTTP, hallow, hban, hhook, eq_self_iff_true, not_true,
      Bool.false_eq_true, Bool.true_eq_false, if_false, if_true, reduceIte]
    rcases hA : authenticate env w (checkRemoteAddress env.proxyProtocol r)
        (env.getIPFromRemoteAddress (checkRemoteAddress env.proxyProtocol r).remoteAddr)
      with ⟨aRes, w2, aEv⟩
    rw [hA] at herr hval
    dsimp only at herr hval ⊢
    simp only [herr]
    rcases hV : validateUser env aRes.user (checkRemoteAddress env.proxyProtocol r)
      with ⟨⟨cid, adm⟩, vEv⟩
    rw [hV] at hval
    dsimp only at hval
    subst hval
    simp only [hfs]
    constructor
    · intro hc
      simp only [resolvedRequest] at hc
      rcases hC : checkRequestMethod env (checkRemoteAddress env.proxyProtocol r)
        with ⟨rw2, handled⟩
      rw [hC] at hc
      dsimp only at hc
      subst hc
      simp only [hC]
    · intro hc
      simp only [resolvedRequest] at hc
      rcases hC : checkRequestMethod env (checkRemoteAddress env.proxyProtocol r)
        with ⟨rw2, handled⟩
      rw [hC] at hc
      dsimp only at hc
      subst hc
      simp only [resolvedRequest, hC]

/-- An environment in which exactly the path `/dir` stats as a directory. -/
def dirEnv : Env :=
  { baseEnv with stat := fun p => if p = "/dir" then some ⟨true⟩ else none }

/-- A HEAD request for the directory path `/dir` with valid credentials. -/
def headDirReq : Request :=
  { method := "HEAD", urlPath := "/dir", headers := [],
    remoteAddr := "127.0.0.1:4567", basicAuth := some ("alice", "secret") }

/-- The same request with method GET. -/
def getDirReq : Request := { headDirReq with method := "GET" }

/-- Witness for C6: HEAD on `/dir` is handled (true) with the request
untouched and `ServeHTTP` answers 207 Multi-Status; GET on `/dir` is
rewritten to PROPFIND with `Depth: 1` added and handed to the downstream
handler. -/
theorem checkRequestMethod_directory_witness :
    (checkRequestMethod dirEnv headDirReq).2 = true
    ∧ (checkRequestMethod dirEnv headDirReq).1 = headDirReq
    ∧ (checkRequestMethod dirEnv getDirReq).2 = false
    ∧ (checkRequestMethod dirEnv getDirReq).1.method = "PROPFIND"
    ∧ (checkRequestMethod dirEnv getDirReq).1.headers =
        headerAdd getDirReq.headers "Depth" "1"
    ∧ (ServeHTTP dirEnv emptyWorld headDirReq).1 = .davMultiStatus
    ∧ (ServeHTTP dirEnv emptyWorld getDirReq).1 =
        .davHandler (checkRequestMethod dirEnv (resolvedRequest dirEnv getDirReq)).1 := by
  have ha := (checkRequestMethod_directory dirEnv emptyWorld headDirReq).1.mpr
    ⟨rfl, ⟨true⟩, by decide, rfl⟩
  have hb := (checkRequestMethod_directory dirEnv emptyWorld headDirReq).2.1 ha
  have hc := (checkRequestMethod_directory dirEnv emptyWorld getDirReq).2.2.1
    rfl (by decide)
  have he := ((checkRequestMethod_directory dirEnv emptyWorld headDirReq).2.2.2.2
    rfl rfl rfl (by decide) (by decide) rfl).1 (by decide)
  have hf := ((checkRequestMethod_directory dirEnv emptyWorld getDirReq).2.2.2.2
    rfl rfl rfl (by decide) (by decide) rfl).2 (by decide)
  exact ⟨ha, hb, hc.1, hc.2.1, hc.2.2.1 rfl, he, hf⟩

end Webdavd
